import Mathlib

/-!
Shallow embedding of `src/databricksLogger.py` (class `databricksLogger`).

The logger renders log messages through a user template (Python
`str.format`-style keyed interpolation), wraps the result in ANSI level
decorations, and optionally buffers structured entries for deferred bulk
persistence to an external table.

External collaborators (the Spark catalog/table sink, the Databricks
job-context and widget lookups, and the wall clock) are passed in as
explicit parameters: `DbxEnv` bundles the lookups and the table-existence
check, write failures are an explicit `Option String` argument to
`persist_cache`, and every render takes the already-formatted timestamp
string as an argument (the source reads the wall clock once per render).
Exceptions are modelled with `Except String` / `Option String` error
results.
-/

deriving instance DecidableEq for Except

namespace DatabricksLogger

/-- One parsed segment of a format template: a literal character or a
named placeholder field. -/
inductive Seg
  | lit (ch : Char)
  | ph (name : String)
deriving DecidableEq, Repr

/-- Scan up to the closing brace of a `\x7bname\x7d` field: returns the field
name characters and the remainder after the closing brace, or `none` when
the closing brace is missing. -/
def splitField : List Char → Option (List Char × List Char)
  | [] => none
  | ch :: rest =>
      if ch = '}' then some ([], rest)
      else
        match splitField rest with
        | none => none
        | some (a, b) => some (ch :: a, b)

/-- Parser for Python format templates, restricted to what the source uses:
doubled braces are literal braces, `\x7bname\x7d` is a named field (no
conversion or format-spec syntax), and an unmatched brace is an error —
mirroring the grammar accepted by `str.format` for the templates this
logger renders.  Recursion is on an explicit fuel so the definition stays
structural; each step consumes at least one character and one unit of
fuel, so `parseFmt` below, which supplies `length + 1` fuel, never reaches
the fuel-exhausted branch. -/
def parseFmtAux : Nat → List Char → Except String (List Seg)
  | 0, _ => Except.error "template parser fuel exhausted"
  | _ + 1, [] => Except.ok []
  | fuel + 1, ch :: rest =>
      if ch = '{' then
        match rest with
        | [] => Except.error "single opening brace in format string"
        | c2 :: rest2 =>
            if c2 = '{' then
              (parseFmtAux fuel rest2).map (fun segs => Seg.lit '{' :: segs)
            else
              match splitField (c2 :: rest2) with
              | some (name, rest3) =>
                  (parseFmtAux fuel rest3).map (fun segs => Seg.ph (String.mk name) :: segs)
              | none => Except.error "single opening brace in format string"
      else if ch = '}' then
        match rest with
        | [] => Except.error "single closing brace in format string"
        | c2 :: rest2 =>
            if c2 = '}' then
              (parseFmtAux fuel rest2).map (fun segs => Seg.lit '}' :: segs)
            else Except.error "single closing brace in format string"
      else (parseFmtAux fuel rest).map (fun segs => Seg.lit ch :: segs)

/-- Parse a whole template character list. -/
def parseFmt (l : List Char) : Except String (List Seg) :=
  parseFmtAux (l.length + 1) l

/-- Association-list lookup, first binding wins — the keyword-argument set
passed to `str.format` in `_format_message`. -/
def lookupStr (n : String) : List (String × String) → Option String
  | [] => none
  | (k, v) :: rest => if k = n then some v else lookupStr n rest

/-- Substitute parsed segments against the keyword set; a placeholder with
no matching key raises (Python `KeyError`). Produces the character list of
the substituted text. -/
def substSegs (subs : List (String × String)) : List Seg → Except String (List Char)
  | [] => Except.ok []
  | Seg.lit ch :: rest => (substSegs subs rest).map (fun cs => ch :: cs)
  | Seg.ph n :: rest =>
      match lookupStr n subs with
      | some v => (substSegs subs rest).map (fun cs => v.data ++ cs)
      | none => Except.error ("KeyError: " ++ n)

/-- `tmpl.format(**subs)`: parse the template and substitute by name;
any failure (bad template, missing key) raises. -/
def pyFormat (tmpl : String) (subs : List (String × String)) : Except String String :=
  match parseFmt tmpl.data with
  | Except.error e => Except.error e
  | Except.ok segs =>
      match substSegs subs segs with
      | Except.error e => Except.error e
      | Except.ok cs => Except.ok (String.mk cs)

/-- The five severity levels, one per public emit operation. -/
inductive Level
  | INFO
  | WARNING
  | ERROR
  | SUCCESS
  | CRITICAL
deriving DecidableEq, Repr

/-- The level string the corresponding emit operation passes to
`_format_message`. -/
def levelName : Level → String
  | Level.INFO => "INFO"
  | Level.WARNING => "WARNING"
  | Level.ERROR => "ERROR"
  | Level.SUCCESS => "SUCCESS"
  | Level.CRITICAL => "CRITICAL"

/-- The `COLORS` class attribute: ANSI codes per level plus the reset code. -/
def COLORS : List (String × String) :=
  [("WARNING", "\x1b[33m"),
   ("INFO", ""),
   ("ERROR", "\x1b[31m"),
   ("SUCCESS", "\x1b[32m"),
   ("CRITICAL", "\x1b[35m"),
   ("RESET", "\x1b[0m")]

/-- `self.COLORS.get(level, '')`. -/
def colorsGet (level : String) : String :=
  (lookupStr level COLORS).getD ""

/-- `self.COLORS['RESET']`. -/
def resetCode : String := "\x1b[0m"

/-- One buffered cache entry, the dict appended to `self.cached_logs`. -/
structure LogEntry where
  job_run_id : String
  timestamp : String
  level : String
  envr : String
  message : String
deriving DecidableEq, Repr

/-- The instance state of a `databricksLogger` object.  `uc_table_name` and
`job_run_id` default to `""` before `init_caching` sets them (the source
leaves the attributes unset; they are only read when `caching` is true). -/
structure Logger where
  envr : String
  config : String
  custom_config_values : List (String × String)
  timestamp_fmt : String
  timezone : String
  caching : Bool
  uc_table_name : String
  job_run_id : String
  cached_logs : List LogEntry
deriving DecidableEq, Repr

/-- `required_placeholders` in `_validate_format_string`. -/
def requiredPlaceholders : List String :=
  ["{timestamp}", "{message}", "{level}", "{envr}"]

/-- Needle occurs as a leading run of the haystack. -/
def leadsWith : List Char → List Char → Bool
  | [], _ => true
  | _ :: _, [] => false
  | a :: as, b :: bs => a = b && leadsWith as bs

/-- Needle occurs as a contiguous run somewhere in the haystack — Python's
`needle in haystack` substring test. -/
def containsSub (needle : List Char) : List Char → Bool
  | [] => needle.isEmpty
  | b :: bs => leadsWith needle (b :: bs) || containsSub needle bs

/-- `_validate_format_string` as a predicate: at least one of the four
required placeholder substrings occurs in the format string. -/
def validate_format_string (s : String) : Bool :=
  requiredPlaceholders.any (fun p => containsSub p.data s.data)

/-- The error raised by `_validate_format_string`. -/
def fmtValidationErr : String :=
  "Format string must contain at least one of: {timestamp}, {message}, {level}, {envr}"

/-- The environments for which `__init__` picks the dev default template. -/
def devEnvrs : List String := ["dev", "development", "test", "testing"]

/-- `envr.lower()`, character by character (the tags compared against are
ASCII). -/
def pyLower (s : String) : String := String.mk (s.data.map Char.toLower)

/-- Default template selection in `__init__` when no config is supplied. -/
def defaultConfig (envr : String) : String :=
  if devEnvrs.contains (pyLower envr) then "[{timestamp}] <{envr}> : {message}"
  else "[{timestamp}] : {message}"

/-- `databricksLogger.__init__`.  Timezone resolution (`pytz.timezone`) is
an external lookup; the identifier string is stored as given and assumed
resolvable, since no claim concerns invalid timezones.  A caller-supplied
config is validated; defaults are exempt. -/
def mkLogger (envr : String) (config : Option String)
    (custom_config_values : Option (List (String × String)))
    (timestamp_fmt : Option String) (timezone : Option String) :
    Except String Logger :=
  match config with
  | some c =>
      if validate_format_string c then
        Except.ok
          { envr := envr
            config := c
            custom_config_values := custom_config_values.getD []
            timestamp_fmt := timestamp_fmt.getD "%Y-%m-%d %H:%M:%S"
            timezone := timezone.getD "America/Chicago"
            caching := false
            uc_table_name := ""
            job_run_id := ""
            cached_logs := [] }
      else Except.error fmtValidationErr
  | none =>
      Except.ok
        { envr := envr
          config := defaultConfig envr
          custom_config_values := custom_config_values.getD []
          timestamp_fmt := timestamp_fmt.getD "%Y-%m-%d %H:%M:%S"
          timezone := timezone.getD "America/Chicago"
          caching := false
          uc_table_name := ""
          job_run_id := ""
          cached_logs := [] }

/-- The four keyword names `_format_message` passes explicitly to
`str.format`. -/
def reservedKeys : List String := ["timestamp", "message", "level", "envr"]

/-- The explicit keyword arguments of the `self.config.format(...)` call. -/
def builtinSubs (lg : Logger) (timestamp message level : String) :
    List (String × String) :=
  [("timestamp", timestamp), ("message", message), ("level", level), ("envr", lg.envr)]

/-- Whether `**self.custom_config_values` collides with one of the explicit
keyword arguments — in Python this makes the `format` call itself raise
`TypeError: got multiple values for keyword argument`. -/
def hasReservedCustomKey (lg : Logger) : Bool :=
  lg.custom_config_values.any (fun kv => reservedKeys.contains kv.1)

/-- `_format_message(message, level, cache_message)`.  The timestamp string
(the strftime-rendered clock reading) is an explicit argument.  Returns the
decorated string handed to `print` together with the updated instance
state; any exception of the `format` call propagates and nothing is
appended to the cache (the append follows the format in the source). -/
def format_message (lg : Logger) (timestamp message level : String)
    (cache_message : Bool) : Except String (String × Logger) :=
  if hasReservedCustomKey lg then
    Except.error ("TypeError: got multiple values for keyword argument")
  else
    match pyFormat lg.config (builtinSubs lg timestamp message level ++ lg.custom_config_values) with
    | Except.error e => Except.error e
    | Except.ok formatted =>
        let lg2 :=
          if lg.caching && cache_message then
            { lg with cached_logs := lg.cached_logs ++
                [{ job_run_id := lg.job_run_id
                   timestamp := timestamp
                   level := level
                   envr := lg.envr
                   message := message }] }
          else lg
        Except.ok (colorsGet level ++ formatted ++ resetCode, lg2)

/-- `info`: render at level INFO and print; the returned string is the
printed line. -/
def info (lg : Logger) (timestamp message : String) (cache_message : Bool) :
    Except String (String × Logger) :=
  format_message lg timestamp message "INFO" cache_message

/-- `warning`: render at level WARNING and print. -/
def warning (lg : Logger) (timestamp message : String) (cache_message : Bool) :
    Except String (String × Logger) :=
  format_message lg timestamp message "WARNING" cache_message

/-- `error`: render at level ERROR and print. -/
def error (lg : Logger) (timestamp message : String) (cache_message : Bool) :
    Except String (String × Logger) :=
  format_message lg timestamp message "ERROR" cache_message

/-- `critical`: render at level CRITICAL and print. -/
def critical (lg : Logger) (timestamp message : String) (cache_message : Bool) :
    Except String (String × Logger) :=
  format_message lg timestamp message "CRITICAL" cache_message

/-- `success`: render at level SUCCESS and print. -/
def success (lg : Logger) (timestamp message : String) (cache_message : Bool) :
    Except String (String × Logger) :=
  format_message lg timestamp message "SUCCESS" cache_message

/-- Dispatch to the five public emit operations by level. -/
def emitLevel (l : Level) (lg : Logger) (timestamp message : String)
    (cache_message : Bool) : Except String (String × Logger) :=
  match l with
  | Level.INFO => info lg timestamp message cache_message
  | Level.WARNING => warning lg timestamp message cache_message
  | Level.ERROR => error lg timestamp message cache_message
  | Level.SUCCESS => success lg timestamp message cache_message
  | Level.CRITICAL => critical lg timestamp message cache_message

/-- Placeholder names a parsed template references. -/
def phNames : List Seg → List String
  | [] => []
  | Seg.ph n :: rest => n :: phNames rest
  | Seg.lit _ :: rest => phNames rest

/-- Placeholder names referenced by a raw template (empty when the template
itself does not parse — such a template cannot render at all). -/
def referencedPh (cfg : String) : List String :=
  match parseFmt cfg.data with
  | Except.ok segs => phNames segs
  | Except.error _ => []

/-- The keys of the substitution set every render uses: the four built-in
names plus the construction-time custom keys. -/
def subsKeys (lg : Logger) : List String :=
  reservedKeys ++ lg.custom_config_values.map (fun kv => kv.1)

/-- Whether every render on this instance succeeds: no custom key collides
with an explicit keyword, the template parses, and every referenced
placeholder has a substitution key.  Render success depends only on the
config and the custom keys, never on the timestamp/message/level values
being substituted. -/
def emitOk (lg : Logger) : Bool :=
  !hasReservedCustomKey lg &&
    (match parseFmt lg.config.data with
     | Except.ok segs => (phNames segs).all (fun n => (subsKeys lg).contains n)
     | Except.error _ => false)

/-- The external Databricks collaborators of `init_caching`:
`spark.catalog.tableExists`, the notebook-context job-id accessor (`none`
means the accessor chain raises), and
`dbutils.widgets.getAll().get("job_id", None)`. -/
structure DbxEnv where
  tableExists : String → Bool
  notebookJobId : Option String
  widgetJobId : Option String

/-- The `ValueError` message of the unresolved-job-id failure in
`init_caching` (source apostrophes around names elided). -/
def jobIdUnresolvedErr : String :=
  "Job run ID could not be determined from notebook context or fetched from job parameters; caching disabled."

/-- The `ValueError` message of the missing-table failure in `init_caching`
(source apostrophes around the table name elided). -/
def tableMissingErr (t : String) : String :=
  "Table " ++ t ++ " does not exist in the catalog."

/-- `init_caching(uc_table_name)`.  Returns the updated instance state and
the raised error, if any.  Faithful to the source ordering: the table check
raises first; `uc_table_name` and `caching := true` are set before job-id
resolution; the INFO diagnostic and the primary context lookup sit in a
try-block whose bare except prints a WARNING diagnostic and then reads the
`job_id` widget; if the widget yields nothing, `caching` is reset to false
and a `ValueError` is raised.  When the instance cannot render at all
(`emitOk` false), the INFO diagnostic raises, is caught, and the WARNING
diagnostic re-raises the same format error outside the try-block — the
lookups are never reached and `caching` stays true.  The diagnostics pass
`cache_message := false`, so they never touch the buffer, and `init_caching`
itself never touches `cached_logs`. -/
def init_caching (env : DbxEnv) (lg : Logger) (uc_table_name : String) :
    Logger × Option String :=
  if env.tableExists uc_table_name = false then
    (lg, some (tableMissingErr uc_table_name))
  else
    let lg1 := { lg with uc_table_name := uc_table_name, caching := true }
    if emitOk lg1 = false then
      (lg1, some "format error while emitting job-id resolution diagnostics")
    else
      match env.notebookJobId with
      | some jid => ({ lg1 with job_run_id := jid }, none)
      | none =>
          match env.widgetJobId with
          | some jid => ({ lg1 with job_run_id := jid }, none)
          | none => ({ lg1 with caching := false }, some jobIdUnresolvedErr)

/-- Result of one `persist_cache` call: the updated instance state, the
raised error if any, the row set handed to the external table write
(`none` when no write was attempted), and the lines printed by the call's
own diagnostics. -/
structure FlushOut where
  state : Logger
  err : Option String
  written : Option (List LogEntry)
  printed : List String
deriving DecidableEq, Repr

/-- The `ValueError` raised by `persist_cache` before initialization
(source apostrophes around the method name elided). -/
def cachingDisabledErr : String :=
  "Caching is not enabled. Call init_caching first."

/-- `persist_cache()`.  `ts` is the strftime-rendered clock reading used by
the call's diagnostic renders; `writeErr` is the outcome of the external
`df.write...saveAsTable` call (`some e` meaning the sink raised `e`).
Faithful to the source: the not-initialized check raises first; an empty
buffer takes the CRITICAL "nothing to persist" path with no write; otherwise
an INFO line is printed, the buffered rows are handed to the write, and only
after a successful write (and the closing INFO line) is the buffer cleared.
A failed write leaves `cached_logs` untouched and propagates the sink's
error. -/
def persist_cache (lg : Logger) (ts : String) (writeErr : Option String) : FlushOut :=
  if lg.caching = false then
    { state := lg, err := some cachingDisabledErr, written := none, printed := [] }
  else if lg.cached_logs.length = 0 then
    match format_message lg ts "No cached logs to persist." "CRITICAL" false with
    | Except.error e => { state := lg, err := some e, written := none, printed := [] }
    | Except.ok (line, lg2) =>
        { state := lg2, err := none, written := none, printed := [line] }
  else
    match format_message lg ts
        ("Persisting " ++ toString lg.cached_logs.length ++
          " cached log entries to table " ++ lg.uc_table_name ++ ".") "INFO" false with
    | Except.error e => { state := lg, err := some e, written := none, printed := [] }
    | Except.ok (line1, lg2) =>
        match writeErr with
        | some e =>
            { state := lg2, err := some e, written := some lg2.cached_logs,
              printed := [line1] }
        | none =>
            match format_message lg2 ts
                "Cached logs persisted successfully; flushing current cache." "INFO" false with
            | Except.error e =>
                { state := lg2, err := some e, written := some lg2.cached_logs,
                  printed := [line1] }
            | Except.ok (line2, lg3) =>
                { state := { lg3 with cached_logs := [] }, err := none,
                  written := some lg2.cached_logs, printed := [line1, line2] }

/-- One emit request: which public operation is called, the clock reading
at that call, the message, and the per-call cache flag. -/
structure EmitCall where
  level : Level
  ts : String
  message : String
  cache_message : Bool
deriving DecidableEq, Repr

/-- The cache entry an emit call appends (when the controller is Enabled
and the call opts in). -/
def entryOf (lg : Logger) (c : EmitCall) : LogEntry :=
  { job_run_id := lg.job_run_id
    timestamp := c.ts
    level := levelName c.level
    envr := lg.envr
    message := c.message }

/-- The entries a sequence of emit calls appends while caching is enabled:
one per cache-requested call, in call order. -/
def cachedOf (lg : Logger) (calls : List EmitCall) : List LogEntry :=
  (calls.filter (fun c => c.cache_message)).map (entryOf lg)

/-- Run a sequence of emit calls, threading the instance state; the first
raised exception aborts the run. -/
def runEmits (lg : Logger) : List EmitCall → Except String Logger
  | [] => Except.ok lg
  | c :: rest =>
      match emitLevel c.level lg c.ts c.message c.cache_message with
      | Except.error e => Except.error e
      | Except.ok (_, lg2) => runEmits lg2 rest

/-- The instance state after a successful run of emit calls from an
Enabled state: only the buffer grows. -/
def finalState (lg : Logger) (calls : List EmitCall) : Logger :=
  { lg with cached_logs := lg.cached_logs ++ cachedOf lg calls }

/-- A freshly constructed production logger (default non-dev template,
UTC timezone), as `mkLogger "prod" none none none (some "UTC")` produces. -/
def lgBase : Logger :=
  { envr := "prod"
    config := "[{timestamp}] : {message}"
    custom_config_values := []
    timestamp_fmt := "%Y-%m-%d %H:%M:%S"
    timezone := "UTC"
    caching := false
    uc_table_name := ""
    job_run_id := ""
    cached_logs := [] }

/-- `lgBase` after a successful `init_caching` against an existing table
with notebook job id `42`. -/
def lgOn : Logger :=
  { lgBase with caching := true, uc_table_name := "main.logs.job_logs", job_run_id := "42" }

/-- The cache entry appended by `info lgOn "2025-01-01 00:00:00" "step one" true`. -/
def entry1 : LogEntry :=
  { job_run_id := "42"
    timestamp := "2025-01-01 00:00:00"
    level := "INFO"
    envr := "prod"
    message := "step one" }

/-- `lgOn` holding one unflushed buffered entry. -/
def lgOn1 : Logger := { lgOn with cached_logs := [entry1] }

/-- An environment where every table exists and the notebook context
resolves job id `42`. -/
def envOkNb : DbxEnv :=
  { tableExists := fun _ => true, notebookJobId := some "42", widgetJobId := none }

/-- An environment where every table exists but neither job-id lookup
yields a value. -/
def envNoId : DbxEnv :=
  { tableExists := fun _ => true, notebookJobId := none, widgetJobId := none }

/-- A logger whose (valid) template references a placeholder `foo` that no
substitution supplies. -/
def lgFoo : Logger := { lgBase with config := "[{message}] {foo}" }

/-- Two cache-requested WARNING emit calls. -/
def callsW : List EmitCall :=
  [{ level := Level.WARNING, ts := "t1", message := "m1", cache_message := true },
   { level := Level.WARNING, ts := "t2", message := "m2", cache_message := true }]

section Lemmas

/-- `lookupStr` misses exactly the keys outside the association list. -/
theorem lookupStr_eq_none {n : String} {l : List (String × String)} :
    lookupStr n l = none ↔ n ∉ l.map Prod.fst := by
  induction l with
  | nil => simp [lookupStr]
  | cons kv rest ih =>
      obtain ⟨k, v⟩ := kv
      by_cases hk : k = n
      · subst hk; simp [lookupStr]
      · simp [lookupStr, hk, ih, Ne.symm hk]

/-- A key present among the firsts is found by `lookupStr`. -/
theorem lookupStr_isSome {n : String} {l : List (String × String)}
    (h : n ∈ l.map Prod.fst) : (lookupStr n l).isSome = true := by
  cases hl : lookupStr n l with
  | none => exact absurd h (lookupStr_eq_none.mp hl)
  | some v => rfl

/-- Substitution succeeds when every referenced placeholder is found. -/
theorem substSegs_ok {subs : List (String × String)} {segs : List Seg}
    (h : (phNames segs).all (fun n => (lookupStr n subs).isSome) = true) :
    ∃ cs, substSegs subs segs = Except.ok cs := by
  induction segs with
  | nil => exact ⟨[], rfl⟩
  | cons s rest ih =>
      cases s with
      | lit ch =>
          obtain ⟨cs, hcs⟩ := ih (by simpa [phNames] using h)
          exact ⟨ch :: cs, by simp [substSegs, hcs, Except.map]⟩
      | ph n =>
          simp only [phNames, List.all_cons, Bool.and_eq_true] at h
          obtain ⟨v, hv⟩ := Option.isSome_iff_exists.mp h.1
          obtain ⟨cs, hcs⟩ := ih h.2
          exact ⟨v.data ++ cs, by simp [substSegs, hv, hcs, Except.map]⟩

/-- Substitution fails when some referenced placeholder is missing. -/
theorem substSegs_error {subs : List (String × String)} {segs : List Seg} {n : String}
    (hn : n ∈ phNames segs) (hmiss : lookupStr n subs = none) :
    ∃ e, substSegs subs segs = Except.error e := by
  induction segs with
  | nil => simp [phNames] at hn
  | cons s rest ih =>
      cases s with
      | lit ch =>
          obtain ⟨e, he⟩ := ih (by simpa [phNames] using hn)
          exact ⟨e, by simp [substSegs, he, Except.map]⟩
      | ph m =>
          by_cases hm : m = n
          · subst hm
            exact ⟨"KeyError: " ++ m, by simp [substSegs, hmiss]⟩
          · cases hlm : lookupStr m subs with
            | none => exact ⟨"KeyError: " ++ m, by simp [substSegs, hlm]⟩
            | some v =>
                have hn2 : n ∈ phNames rest := by
                  simp only [phNames, List.mem_cons] at hn
                  exact hn.resolve_left (fun he => hm he.symm)
                obtain ⟨e, he⟩ := ih hn2
                exact ⟨e, by simp [substSegs, hlm, he, Except.map]⟩

/-- The keyword set passed to `format` has exactly the keys `subsKeys`. -/
theorem subs_map_fst (lg : Logger) (ts msg lvl : String) :
    (builtinSubs lg ts msg lvl ++ lg.custom_config_values).map Prod.fst = subsKeys lg := by
  simp [builtinSubs, subsKeys, reservedKeys]

/-- Each public emit operation is `_format_message` at its fixed level. -/
theorem emitLevel_eq (l : Level) (lg : Logger) (ts msg : String) (c : Bool) :
    emitLevel l lg ts msg c = format_message lg ts msg (levelName l) c := by
  cases l <;> rfl

/-- On an instance whose renders succeed, `_format_message` returns the
decorated substituted template and appends exactly when the controller is
Enabled and the call opts in. -/
theorem format_message_ok (lg : Logger) (hok : emitOk lg = true)
    (ts msg lvl : String) (c : Bool) :
    ∃ body,
      pyFormat lg.config (builtinSubs lg ts msg lvl ++ lg.custom_config_values) =
        Except.ok body ∧
      format_message lg ts msg lvl c = Except.ok
        (colorsGet lvl ++ body ++ resetCode,
          if lg.caching && c then
            { lg with cached_logs := lg.cached_logs ++
                [{ job_run_id := lg.job_run_id, timestamp := ts, level := lvl,
                   envr := lg.envr, message := msg }] }
          else lg) := by
  unfold emitOk at hok
  rw [Bool.and_eq_true, Bool.not_eq_true'] at hok
  obtain ⟨hres, hmain⟩ := hok
  cases hp : parseFmt lg.config.data with
  | error e => rw [hp] at hmain; cases hmain
  | ok segs =>
      rw [hp] at hmain
      have hall : (phNames segs).all
          (fun n => (lookupStr n (builtinSubs lg ts msg lvl ++ lg.custom_config_values)).isSome) = true := by
        rw [List.all_eq_true] at hmain ⊢
        intro n hn
        apply lookupStr_isSome
        rw [subs_map_fst]
        have hc := hmain n hn
        simpa [List.contains] using hc
      obtain ⟨cs, hcs⟩ := substSegs_ok hall
      refine ⟨String.mk cs, ?_, ?_⟩
      · unfold pyFormat
        simp only [hp, hcs]
      · unfold format_message
        unfold pyFormat
        simp only [hres, Bool.false_eq_true, if_false, hp, hcs]

/-- A successful emit changes nothing but the buffer, which grows by the
structured copy of the call exactly when the controller is Enabled and the
call opts in. -/
theorem format_message_state {lg lg2 : Logger} {out ts msg lvl : String} {c : Bool}
    (h : format_message lg ts msg lvl c = Except.ok (out, lg2)) :
    lg2 = (if lg.caching && c then
        { lg with cached_logs := lg.cached_logs ++
            [{ job_run_id := lg.job_run_id, timestamp := ts, level := lvl,
               envr := lg.envr, message := msg }] }
      else lg) := by
  unfold format_message at h
  split at h
  · cases h
  · split at h
    · cases h
    · rw [Except.ok.injEq, Prod.mk.injEq] at h
      exact h.2.symm

/-- Render success depends only on the config and the custom values. -/
theorem emitOk_congr {lg lg2 : Logger} (h1 : lg2.config = lg.config)
    (h2 : lg2.custom_config_values = lg.custom_config_values) :
    emitOk lg2 = emitOk lg := by
  unfold emitOk hasReservedCustomKey subsKeys
  rw [h1, h2]

/-- The structured copies appended by a call sequence depend only on the
job id and environment tag of the running instance. -/
theorem cachedOf_congr {lg lg2 : Logger} (h1 : lg2.job_run_id = lg.job_run_id)
    (h2 : lg2.envr = lg.envr) (calls : List EmitCall) :
    cachedOf lg2 calls = cachedOf lg calls := by
  unfold cachedOf entryOf
  simp only [h1, h2]

/-- Running emit calls from an Enabled, rendering instance succeeds and
only extends the buffer with the cache-requested entries, in call order. -/
theorem runEmits_eq (lg : Logger) (calls : List EmitCall)
    (hc : lg.caching = true) (hok : emitOk lg = true) :
    runEmits lg calls = Except.ok (finalState lg calls) := by
  induction calls generalizing lg with
  | nil => simp [runEmits, finalState, cachedOf]
  | cons c rest ih =>
      obtain ⟨body, _, hfm⟩ :=
        format_message_ok lg hok c.ts c.message (levelName c.level) c.cache_message
      rw [runEmits, emitLevel_eq]
      simp only [hfm]
      by_cases hcm : c.cache_message = true
      · simp only [hc, hcm, Bool.and_self, if_true]
        have hok2 : emitOk
            { lg with caching := true, cached_logs := lg.cached_logs ++
                [{ job_run_id := lg.job_run_id, timestamp := c.ts, level := levelName c.level,
                   envr := lg.envr, message := c.message }] } = true := by
          rw [emitOk_congr rfl rfl]; exact hok
        rw [ih _ rfl hok2]
        have hco : cachedOf
            { lg with caching := true, cached_logs := lg.cached_logs ++
                [{ job_run_id := lg.job_run_id, timestamp := c.ts, level := levelName c.level,
                   envr := lg.envr, message := c.message }] } rest = cachedOf lg rest :=
          cachedOf_congr rfl rfl rest
        unfold finalState
        rw [Except.ok.injEq, hco]
        unfold cachedOf
        rw [List.filter_cons_of_pos hcm, List.map_cons]
        simp [Logger.mk.injEq, hc, entryOf, List.append_assoc]
      · rw [Bool.not_eq_true] at hcm
        simp only [hcm, Bool.and_false, Bool.false_eq_true, if_false]
        rw [ih lg hc hok]
        unfold finalState
        rw [Except.ok.injEq]
        unfold cachedOf
        rw [List.filter_cons_of_neg (by simp [hcm])]

/-- Flushing an empty buffer on an Enabled, rendering instance: no write is
attempted, the CRITICAL "nothing to persist" diagnostic is printed, no
error is raised and the state is unchanged — regardless of how the external
sink would have behaved. -/
theorem persist_cache_empty (lg : Logger) (ts : String) (w : Option String)
    (hc : lg.caching = true) (hok : emitOk lg = true) (he : lg.cached_logs = []) :
    ∃ line,
      format_message lg ts "No cached logs to persist." "CRITICAL" false =
        Except.ok (line, lg) ∧
      persist_cache lg ts w =
        { state := lg, err := none, written := none, printed := [line] } := by
  obtain ⟨body, _, hfm⟩ :=
    format_message_ok lg hok ts "No cached logs to persist." "CRITICAL" false
  simp only [Bool.and_false, Bool.false_eq_true, if_false] at hfm
  refine ⟨colorsGet "CRITICAL" ++ body ++ resetCode, hfm, ?_⟩
  unfold persist_cache
  rw [hc, if_neg (by decide : ¬(true = false)), he]
  rw [if_pos (show ([] : List LogEntry).length = 0 from rfl)]
  simp only [hfm]

/-- Flushing a non-empty buffer on an Enabled, rendering instance when the
external write raises: the error propagates, the buffered rows were handed
to the write, and the state — the buffer in particular — is exactly as
before the call. -/
theorem persist_cache_write_fail (lg : Logger) (ts e : String)
    (hc : lg.caching = true) (hok : emitOk lg = true) (hne : lg.cached_logs ≠ []) :
    ∃ line, persist_cache lg ts (some e) =
      { state := lg, err := some e, written := some lg.cached_logs, printed := [line] } := by
  obtain ⟨body, _, hfm⟩ := format_message_ok lg hok ts
    ("Persisting " ++ toString lg.cached_logs.length ++
      " cached log entries to table " ++ lg.uc_table_name ++ ".") "INFO" false
  simp only [Bool.and_false, Bool.false_eq_true, if_false] at hfm
  refine ⟨colorsGet "INFO" ++ body ++ resetCode, ?_⟩
  unfold persist_cache
  rw [hc, if_neg (by decide : ¬(true = false))]
  rw [if_neg (fun h0 => hne (List.length_eq_zero.mp h0))]
  simp only [hfm]

/-- Flushing a non-empty buffer on an Enabled, rendering instance when the
external write succeeds: the buffered rows are handed to the write in
order, two INFO diagnostics are printed, no error is raised, and the
buffer — and nothing else — is cleared. -/
theorem persist_cache_write_ok (lg : Logger) (ts : String)
    (hc : lg.caching = true) (hok : emitOk lg = true) (hne : lg.cached_logs ≠ []) :
    ∃ l1 l2, persist_cache lg ts none =
      { state := { lg with cached_logs := [] }, err := none,
        written := some lg.cached_logs, printed := [l1, l2] } := by
  obtain ⟨body1, _, hfm1⟩ := format_message_ok lg hok ts
    ("Persisting " ++ toString lg.cached_logs.length ++
      " cached log entries to table " ++ lg.uc_table_name ++ ".") "INFO" false
  obtain ⟨body2, _, hfm2⟩ := format_message_ok lg hok ts
    "Cached logs persisted successfully; flushing current cache." "INFO" false
  simp only [Bool.and_false, Bool.false_eq_true, if_false] at hfm1 hfm2
  refine ⟨colorsGet "INFO" ++ body1 ++ resetCode, colorsGet "INFO" ++ body2 ++ resetCode, ?_⟩
  unfold persist_cache
  rw [hc, if_neg (by decide : ¬(true = false))]
  rw [if_neg (fun h0 => hne (List.length_eq_zero.mp h0))]
  simp only [hfm1, hfm2]
  rw [hc]

/-- After any flush that does not raise, on an Enabled rendering instance,
the buffer is empty, the controller is still Enabled and the instance still
renders. -/
theorem persist_cache_success_state (lg : Logger) (ts : String) (w : Option String)
    (hc : lg.caching = true) (hok : emitOk lg = true)
    (h1 : (persist_cache lg ts w).err = none) :
    (persist_cache lg ts w).state.cached_logs = [] ∧
    (persist_cache lg ts w).state.caching = true ∧
    emitOk (persist_cache lg ts w).state = true := by
  by_cases he : lg.cached_logs = []
  · obtain ⟨line, _, hpc⟩ := persist_cache_empty lg ts w hc hok he
    rw [hpc]
    exact ⟨he, hc, hok⟩
  · cases w with
    | some e =>
        obtain ⟨line, hpc⟩ := persist_cache_write_fail lg ts e hc hok he
        rw [hpc] at h1
        exact Option.noConfusion h1
    | none =>
        obtain ⟨l1, l2, hpc⟩ := persist_cache_write_ok lg ts hc hok he
        rw [hpc]
        refine ⟨rfl, hc, ?_⟩
        rw [emitOk_congr rfl rfl]
        exact hok

end Lemmas

section Claims

/-- Claim C5: for every template string containing none of the four
recognized placeholder substrings, construction with that template fails
with the validation error; for every template string containing at least
one of them, validation succeeds and construction does not fail on
template grounds (the template is accepted and stored). -/
theorem C5_template_validation (envr s : String)
    (custom : Option (List (String × String))) (tf tz : Option String) :
    ((∀ p ∈ requiredPlaceholders, containsSub p.data s.data = false) →
       mkLogger envr (some s) custom tf tz = Except.error fmtValidationErr) ∧
    ((∃ p ∈ requiredPlaceholders, containsSub p.data s.data = true) →
       ∃ lg, mkLogger envr (some s) custom tf tz = Except.ok lg ∧ lg.config = s) := by
  constructor
  · intro h
    have hv : validate_format_string s = false := by
      unfold validate_format_string
      rw [List.any_eq_false]
      intro p hp
      simp [h p hp]
    unfold mkLogger
    simp only [hv, Bool.false_eq_true, if_false]
  · rintro ⟨p, hp, hcon⟩
    have hv : validate_format_string s = true := by
      unfold validate_format_string
      rw [List.any_eq_true]
      exact ⟨p, hp, hcon⟩
    unfold mkLogger
    simp only [hv, if_true]
    exact ⟨_, rfl, rfl⟩

/-- Claim C5 witness: a template with no recognized placeholder is
rejected; a template containing one is accepted and stored. -/
theorem C5_template_validation_witness :
    (∀ p ∈ requiredPlaceholders, containsSub p.data "no placeholders here".data = false) ∧
    mkLogger "prod" (some "no placeholders here") none none none =
      Except.error fmtValidationErr ∧
    (∃ p ∈ requiredPlaceholders, containsSub p.data "x{message}y".data = true) ∧
    ∃ lg, mkLogger "prod" (some "x{message}y") none none none = Except.ok lg ∧
      lg.config = "x{message}y" :=
  ⟨by decide,
   (C5_template_validation "prod" "no placeholders here" none none none).1 (by decide),
   by decide,
   (C5_template_validation "prod" "x{message}y" none none none).2 (by decide)⟩

/-- Claim C6: an emit call whose template references a placeholder name
absent from the substitution set (the four built-in names plus the
construction-time custom keys) raises; the error propagates to the caller
rather than a string with the literal placeholder text being returned. -/
theorem C6_missing_placeholder (lg : Logger) (l : Level) (ts msg : String)
    (c : Bool) (name : String) (href : name ∈ referencedPh lg.config)
    (habs : name ∉ subsKeys lg) :
    ∃ e, emitLevel l lg ts msg c = Except.error e := by
  rw [emitLevel_eq]
  by_cases hres : hasReservedCustomKey lg = true
  · refine ⟨"TypeError: got multiple values for keyword argument", ?_⟩
    unfold format_message
    simp only [hres, if_true]
  · rw [Bool.not_eq_true] at hres
    unfold referencedPh at href
    cases hp : parseFmt lg.config.data with
    | error e => simp only [hp] at href; simp at href
    | ok segs =>
        simp only [hp] at href
        have hmiss :
            lookupStr name (builtinSubs lg ts msg (levelName l) ++ lg.custom_config_values) =
              none := by
          rw [lookupStr_eq_none, subs_map_fst]
          exact habs
        obtain ⟨e, he⟩ := substSegs_error href hmiss
        refine ⟨e, ?_⟩
        unfold format_message pyFormat
        simp only [hres, Bool.false_eq_true, if_false, hp, he]

/-- Claim C6 witness: the valid template referencing `foo` with no `foo`
substitution makes the INFO emit raise. -/
theorem C6_missing_placeholder_witness :
    "foo" ∈ referencedPh lgFoo.config ∧ "foo" ∉ subsKeys lgFoo ∧
    ∃ e, emitLevel Level.INFO lgFoo "2025-01-01 00:00:00" "hi" false = Except.error e :=
  ⟨by decide, by decide,
   C6_missing_placeholder lgFoo Level.INFO "2025-01-01 00:00:00" "hi" false "foo"
     (by decide) (by decide)⟩

/-- Claim C7: for each of the five levels, a successful render returns
exactly the level's decoration code (empty for INFO, a distinct non-empty
ANSI code for the other four), then the substituted template content, then
the reset code. -/
theorem C7_decoration (l : Level) (lg : Logger) (ts msg : String) (c : Bool)
    (out : String) (lg2 : Logger)
    (h : emitLevel l lg ts msg c = Except.ok (out, lg2)) :
    ∃ body,
      pyFormat lg.config (builtinSubs lg ts msg (levelName l) ++ lg.custom_config_values) =
        Except.ok body ∧
      out = colorsGet (levelName l) ++ body ++ resetCode ∧
      (colorsGet (levelName l) = "" ↔ l = Level.INFO) ∧
      resetCode = "\x1b[0m" ∧
      (∀ l2 l3 : Level, colorsGet (levelName l2) = colorsGet (levelName l3) → l2 = l3) := by
  rw [emitLevel_eq] at h
  unfold format_message at h
  split at h
  · cases h
  · cases hpf : pyFormat lg.config
        (builtinSubs lg ts msg (levelName l) ++ lg.custom_config_values) with
    | error e =>
        simp only [hpf] at h
        exact Except.noConfusion h
    | ok body =>
        simp only [hpf] at h
        rw [Except.ok.injEq, Prod.mk.injEq] at h
        refine ⟨body, rfl, h.1.symm, ?_, rfl, ?_⟩
        · cases l <;> decide
        · intro l2 l3
          cases l2 <;> cases l3 <;> decide

/-- Claim C7 witness: a concrete WARNING render splits as yellow code,
substituted content, reset code. -/
theorem C7_decoration_witness :
    emitLevel Level.WARNING lgBase "2025-01-01 00:00:00" "hi" false =
      Except.ok ("\x1b[33m[2025-01-01 00:00:00] : hi" ++ "\x1b[0m", lgBase) ∧
    ∃ body,
      pyFormat lgBase.config
          (builtinSubs lgBase "2025-01-01 00:00:00" "hi" (levelName Level.WARNING) ++
            lgBase.custom_config_values) =
        Except.ok body ∧
      "\x1b[33m[2025-01-01 00:00:00] : hi" ++ "\x1b[0m" =
        colorsGet (levelName Level.WARNING) ++ body ++ resetCode ∧
      (colorsGet (levelName Level.WARNING) = "" ↔ Level.WARNING = Level.INFO) ∧
      resetCode = "\x1b[0m" ∧
      (∀ l2 l3 : Level, colorsGet (levelName l2) = colorsGet (levelName l3) → l2 = l3) :=
  ⟨by decide,
   C7_decoration Level.WARNING lgBase "2025-01-01 00:00:00" "hi" false
     ("\x1b[33m[2025-01-01 00:00:00] : hi" ++ "\x1b[0m") lgBase (by decide)⟩

/-- Claim C9 as stated is false at its own scenario: the line printed by
`info("started")` on the default "prod"/UTC logger does carry a non-empty
display-control suffix — every render, INFO included, appends the reset
code, so the printed line is not the bare substituted template. -/
theorem C9_reset_suffix_cex :
    mkLogger "prod" none none none (some "UTC") = Except.ok lgBase ∧
    info lgBase "2025-01-01 00:00:00" "started" false =
      Except.ok ("[2025-01-01 00:00:00] : started" ++ "\x1b[0m", lgBase) ∧
    "[2025-01-01 00:00:00] : started" ++ "\x1b[0m" ≠ "[2025-01-01 00:00:00] : started" ∧
    ("\x1b[0m" : String) ≠ "" := by
  decide

/-- Claim C9 amended: the logger constructed with environment "prod", no
explicit template and timezone "UTC" prints, for `info`, a line with empty
decoration prefix (INFO's code is empty) matching the non-dev default
template shape — the substituted `[timestamp] : message` text — followed by
the (non-empty) reset code; with message "started" the line contains
"started". -/
theorem C9_amended_default_info (ts msg : String) :
    mkLogger "prod" none none none (some "UTC") = Except.ok lgBase ∧
    info lgBase ts msg false =
      Except.ok (("[" ++ ts ++ "] : " ++ msg) ++ resetCode, lgBase) ∧
    colorsGet "INFO" = "" ∧ resetCode ≠ "" := by
  refine ⟨by decide, ?_, by decide, by decide⟩
  have hok : emitOk lgBase = true := by decide
  obtain ⟨body, hpf, hfm⟩ := format_message_ok lgBase hok ts msg "INFO" false
  have hcomp : pyFormat lgBase.config (builtinSubs lgBase ts msg "INFO" ++
      lgBase.custom_config_values) =
      Except.ok (String.mk ('[' :: (ts.data ++ (']' :: ' ' :: ':' :: ' ' :: (msg.data ++ []))))) := by
    unfold pyFormat
    have hp : parseFmt lgBase.config.data =
        Except.ok [Seg.lit '[', Seg.ph "timestamp", Seg.lit ']', Seg.lit ' ', Seg.lit ':',
          Seg.lit ' ', Seg.ph "message"] := by decide
    simp only [hp]
    rfl
  rw [hcomp] at hpf
  rw [Except.ok.injEq] at hpf
  unfold info
  rw [hfm]
  have hbody : body = "[" ++ ts ++ "] : " ++ msg := by
    rw [← hpf]
    apply String.ext
    simp [String.data_append]
  rw [hbody]
  have hstr : colorsGet "INFO" ++ ("[" ++ ts ++ "] : " ++ msg) ++ resetCode =
      ("[" ++ ts ++ "] : " ++ msg) ++ resetCode := by
    apply String.ext
    simp [String.data_append, colorsGet, lookupStr, COLORS]
  rw [hstr]
  rfl

/-- Claim C10: a custom_config_values mapping containing a reserved key
(`timestamp`, `message`, `level` or `envr`) is not rejected at
construction, but every subsequent emit call of every level raises — the
keyed-format call receives the keyword twice — instead of one value
overriding the other. -/
theorem C10_reserved_custom (envr : String) (custom : List (String × String))
    (tf tz : Option String)
    (hres : custom.any (fun kv => reservedKeys.contains kv.1) = true) :
    (∃ lg0, mkLogger envr none (some custom) tf tz = Except.ok lg0) ∧
    (∀ (co : Option String) (lg : Logger),
        mkLogger envr co (some custom) tf tz = Except.ok lg →
        ∀ (l : Level) (ts msg : String) (c : Bool),
          ∃ e, emitLevel l lg ts msg c = Except.error e) := by
  constructor
  · exact ⟨_, rfl⟩
  · intro co lg hmk l ts msg c
    have hcv : lg.custom_config_values = custom := by
      cases co with
      | none =>
          simp only [mkLogger] at hmk
          rw [Except.ok.injEq] at hmk
          rw [← hmk]
          rfl
      | some s =>
          simp only [mkLogger] at hmk
          split at hmk
          · rw [Except.ok.injEq] at hmk
            rw [← hmk]
            rfl
          · exact Except.noConfusion hmk
    have hres2 : hasReservedCustomKey lg = true := by
      unfold hasReservedCustomKey
      rw [hcv]
      exact hres
    refine ⟨"TypeError: got multiple values for keyword argument", ?_⟩
    rw [emitLevel_eq]
    unfold format_message
    simp only [hres2, if_true]

/-- Claim C10 witness: custom values carrying the reserved key `level`
pass construction and make a concrete emit raise. -/
theorem C10_reserved_custom_witness :
    ([("level", "x")].any (fun kv => reservedKeys.contains kv.1) = true) ∧
    (∃ lg0, mkLogger "prod" none (some [("level", "x")]) none none = Except.ok lg0) ∧
    (∀ (co : Option String) (lg : Logger),
        mkLogger "prod" co (some [("level", "x")]) none none = Except.ok lg →
        ∀ (l : Level) (ts msg : String) (c : Bool),
          ∃ e, emitLevel l lg ts msg c = Except.error e) :=
  ⟨by decide,
   (C10_reserved_custom "prod" [("level", "x")] none none (by decide)).1,
   (C10_reserved_custom "prod" [("level", "x")] none none (by decide)).2⟩

/-- Claim C1: every entry appended by cache-requested emit calls while the
controller is Enabled appears, in insertion order, in the row set handed to
the external write at the next flush — each row carrying the job run id,
the call's timestamp, the level name, the environment tag and the message —
and the buffer is empty immediately after the successful flush. -/
theorem C1_cache_roundtrip (lg : Logger) (calls : List EmitCall) (ts : String)
    (hc : lg.caching = true) (hok : emitOk lg = true) :
    runEmits lg calls = Except.ok (finalState lg calls) ∧
    (finalState lg calls).cached_logs = lg.cached_logs ++ cachedOf lg calls ∧
    cachedOf lg calls = (calls.filter (fun c => c.cache_message)).map
      (fun c => { job_run_id := lg.job_run_id, timestamp := c.ts, level := levelName c.level,
                  envr := lg.envr, message := c.message }) ∧
    (lg.cached_logs ++ cachedOf lg calls ≠ [] →
       (persist_cache (finalState lg calls) ts none).written =
         some (lg.cached_logs ++ cachedOf lg calls)) ∧
    (persist_cache (finalState lg calls) ts none).err = none ∧
    (persist_cache (finalState lg calls) ts none).state.cached_logs = [] := by
  have hrun := runEmits_eq lg calls hc hok
  have hok2 : emitOk (finalState lg calls) = true := by
    rw [emitOk_congr rfl rfl]; exact hok
  have hc2 : (finalState lg calls).caching = true := hc
  have hbuf : (finalState lg calls).cached_logs = lg.cached_logs ++ cachedOf lg calls := rfl
  refine ⟨hrun, hbuf, rfl, ?_, ?_, ?_⟩
  · intro hne
    obtain ⟨l1, l2, hpc⟩ := persist_cache_write_ok (finalState lg calls) ts hc2 hok2
      (by rw [hbuf]; exact hne)
    rw [hpc]
    rfl
  · by_cases hne : lg.cached_logs ++ cachedOf lg calls = []
    · obtain ⟨line, _, hpc⟩ := persist_cache_empty (finalState lg calls) ts none hc2 hok2
        (by rw [hbuf]; exact hne)
      rw [hpc]
    · obtain ⟨l1, l2, hpc⟩ := persist_cache_write_ok (finalState lg calls) ts hc2 hok2
        (by rw [hbuf]; exact hne)
      rw [hpc]
  · exact (persist_cache_success_state (finalState lg calls) ts none hc2 hok2
      (by
        by_cases hne : lg.cached_logs ++ cachedOf lg calls = []
        · obtain ⟨line, _, hpc⟩ := persist_cache_empty (finalState lg calls) ts none hc2 hok2
            (by rw [hbuf]; exact hne)
          rw [hpc]
        · obtain ⟨l1, l2, hpc⟩ := persist_cache_write_ok (finalState lg calls) ts hc2 hok2
            (by rw [hbuf]; exact hne)
          rw [hpc])).1

/-- Claim C1 witness: two cache-requested WARNING emits on the Enabled
instance, then a flush with a reachable sink. -/
theorem C1_cache_roundtrip_witness :
    lgOn.caching = true ∧ emitOk lgOn = true ∧
    runEmits lgOn callsW = Except.ok (finalState lgOn callsW) ∧
    (finalState lgOn callsW).cached_logs = lgOn.cached_logs ++ cachedOf lgOn callsW ∧
    cachedOf lgOn callsW = (callsW.filter (fun c => c.cache_message)).map
      (fun c => { job_run_id := lgOn.job_run_id, timestamp := c.ts, level := levelName c.level,
                  envr := lgOn.envr, message := c.message }) ∧
    (lgOn.cached_logs ++ cachedOf lgOn callsW ≠ [] →
       (persist_cache (finalState lgOn callsW) "t3" none).written =
         some (lgOn.cached_logs ++ cachedOf lgOn callsW)) ∧
    (persist_cache (finalState lgOn callsW) "t3" none).err = none ∧
    (persist_cache (finalState lgOn callsW) "t3" none).state.cached_logs = [] :=
  ⟨rfl, by decide,
   (C1_cache_roundtrip lgOn callsW "t3" rfl (by decide)).1,
   (C1_cache_roundtrip lgOn callsW "t3" rfl (by decide)).2.1,
   (C1_cache_roundtrip lgOn callsW "t3" rfl (by decide)).2.2.1,
   (C1_cache_roundtrip lgOn callsW "t3" rfl (by decide)).2.2.2.1,
   (C1_cache_roundtrip lgOn callsW "t3" rfl (by decide)).2.2.2.2.1,
   (C1_cache_roundtrip lgOn callsW "t3" rfl (by decide)).2.2.2.2.2⟩

/-- Claim C3: a raising external write during flush propagates the error to
the caller, the buffer — indeed the whole instance state — is exactly as
before the call, and a subsequent flush hands the very same entries to the
write again and clears them. -/
theorem C3_flush_failure_retry (lg : Logger) (ts ts2 e : String)
    (hc : lg.caching = true) (hok : emitOk lg = true) (hne : lg.cached_logs ≠ []) :
    (persist_cache lg ts (some e)).err = some e ∧
    (persist_cache lg ts (some e)).state = lg ∧
    (persist_cache lg ts (some e)).written = some lg.cached_logs ∧
    (persist_cache (persist_cache lg ts (some e)).state ts2 none).written =
      some lg.cached_logs ∧
    (persist_cache (persist_cache lg ts (some e)).state ts2 none).err = none ∧
    (persist_cache (persist_cache lg ts (some e)).state ts2 none).state.cached_logs = [] := by
  obtain ⟨line, hpc⟩ := persist_cache_write_fail lg ts e hc hok hne
  obtain ⟨l1, l2, hpc2⟩ := persist_cache_write_ok lg ts2 hc hok hne
  rw [hpc]
  exact ⟨rfl, rfl, rfl, by rw [hpc2], by rw [hpc2], by rw [hpc2]⟩

/-- Claim C3 witness: a failing write on the Enabled one-entry instance,
then a successful retry. -/
theorem C3_flush_failure_retry_witness :
    lgOn1.caching = true ∧ emitOk lgOn1 = true ∧ lgOn1.cached_logs ≠ [] ∧
    (persist_cache lgOn1 "t" (some "boom")).err = some "boom" ∧
    (persist_cache lgOn1 "t" (some "boom")).state = lgOn1 ∧
    (persist_cache lgOn1 "t" (some "boom")).written = some lgOn1.cached_logs ∧
    (persist_cache (persist_cache lgOn1 "t" (some "boom")).state "t2" none).written =
      some lgOn1.cached_logs ∧
    (persist_cache (persist_cache lgOn1 "t" (some "boom")).state "t2" none).err = none ∧
    (persist_cache (persist_cache lgOn1 "t" (some "boom")).state "t2" none).state.cached_logs =
      [] :=
  ⟨rfl, by decide, by decide,
   (C3_flush_failure_retry lgOn1 "t" "t2" "boom" rfl (by decide) (by decide)).1,
   (C3_flush_failure_retry lgOn1 "t" "t2" "boom" rfl (by decide) (by decide)).2.1,
   (C3_flush_failure_retry lgOn1 "t" "t2" "boom" rfl (by decide) (by decide)).2.2.1,
   (C3_flush_failure_retry lgOn1 "t" "t2" "boom" rfl (by decide) (by decide)).2.2.2.1,
   (C3_flush_failure_retry lgOn1 "t" "t2" "boom" rfl (by decide) (by decide)).2.2.2.2.1,
   (C3_flush_failure_retry lgOn1 "t" "t2" "boom" rfl (by decide) (by decide)).2.2.2.2.2⟩

/-- Claim C4: when the table exists, the job-id resolution is reached (the
instance renders its diagnostics) and both lookups come up empty — the
primary context accessor raises and the `job_id` widget yields no value —
`init_caching` raises the unresolved-job-id error and leaves the controller
Disabled, from every starting state (Enabled re-initializations included). -/
theorem C4_jobid_unresolved (env : DbxEnv) (lg : Logger) (t : String)
    (ht : env.tableExists t = true) (hok : emitOk lg = true)
    (h1 : env.notebookJobId = none) (h2 : env.widgetJobId = none) :
    (init_caching env lg t).2 = some jobIdUnresolvedErr ∧
    (init_caching env lg t).1.caching = false := by
  have hok1 : emitOk { lg with uc_table_name := t, caching := true } = true := by
    rw [emitOk_congr rfl rfl]; exact hok
  unfold init_caching
  rw [ht, if_neg (by decide : ¬(true = false))]
  simp only [hok1, h1, h2]
  rw [if_neg (by decide : ¬(true = false))]
  exact ⟨rfl, rfl⟩

/-- Claim C4 witness: on the Enabled one-entry instance (an arbitrary
starting state), a re-initialization whose two lookups both fail raises
the unresolved-job-id error and disables caching. -/
theorem C4_jobid_unresolved_witness :
    envNoId.tableExists "main.logs.job_logs" = true ∧ emitOk lgOn1 = true ∧
    envNoId.notebookJobId = none ∧ envNoId.widgetJobId = none ∧
    (init_caching envNoId lgOn1 "main.logs.job_logs").2 = some jobIdUnresolvedErr ∧
    (init_caching envNoId lgOn1 "main.logs.job_logs").1.caching = false :=
  ⟨rfl, by decide, rfl, rfl,
   (C4_jobid_unresolved envNoId lgOn1 "main.logs.job_logs" rfl (by decide) rfl rfl).1,
   (C4_jobid_unresolved envNoId lgOn1 "main.logs.job_logs" rfl (by decide) rfl rfl).2⟩

/-- Claim C8: after any flush that does not raise, a second flush with no
intervening cache-requested emit observes an empty buffer, prints the
CRITICAL nothing-to-persist diagnostic, performs no external write — even
if the sink would fail — raises nothing, and leaves the buffer empty and
the controller Enabled. -/
theorem C8_flush_idempotent (lg : Logger) (ts ts2 : String) (w w2 : Option String)
    (hc : lg.caching = true) (hok : emitOk lg = true)
    (h1 : (persist_cache lg ts w).err = none) :
    (persist_cache (persist_cache lg ts w).state ts2 w2).written = none ∧
    (persist_cache (persist_cache lg ts w).state ts2 w2).err = none ∧
    (persist_cache (persist_cache lg ts w).state ts2 w2).state.cached_logs = [] ∧
    (persist_cache (persist_cache lg ts w).state ts2 w2).state.caching = true ∧
    ∃ line,
      format_message (persist_cache lg ts w).state ts2 "No cached logs to persist."
          "CRITICAL" false =
        Except.ok (line, (persist_cache lg ts w).state) ∧
      (persist_cache (persist_cache lg ts w).state ts2 w2).printed = [line] := by
  obtain ⟨he2, hc2, hok2⟩ := persist_cache_success_state lg ts w hc hok h1
  obtain ⟨line, hfm, hpc⟩ :=
    persist_cache_empty (persist_cache lg ts w).state ts2 w2 hc2 hok2 he2
  rw [hpc]
  exact ⟨rfl, rfl, he2, hc2, line, hfm, rfl⟩

/-- Claim C8 witness: flush the Enabled one-entry instance successfully,
then flush again against a sink that would fail — no write happens. -/
theorem C8_flush_idempotent_witness :
    lgOn1.caching = true ∧ emitOk lgOn1 = true ∧
    (persist_cache lgOn1 "t" none).err = none ∧
    (persist_cache (persist_cache lgOn1 "t" none).state "t2" (some "down")).written = none ∧
    (persist_cache (persist_cache lgOn1 "t" none).state "t2" (some "down")).err = none ∧
    (persist_cache (persist_cache lgOn1 "t" none).state "t2"
      (some "down")).state.cached_logs = [] ∧
    (persist_cache (persist_cache lgOn1 "t" none).state "t2"
      (some "down")).state.caching = true ∧
    ∃ line,
      format_message (persist_cache lgOn1 "t" none).state "t2" "No cached logs to persist."
          "CRITICAL" false =
        Except.ok (line, (persist_cache lgOn1 "t" none).state) ∧
      (persist_cache (persist_cache lgOn1 "t" none).state "t2" (some "down")).printed =
        [line] :=
  ⟨rfl, by decide, by decide,
   (C8_flush_idempotent lgOn1 "t" "t2" none (some "down") rfl (by decide) (by decide)).1,
   (C8_flush_idempotent lgOn1 "t" "t2" none (some "down") rfl (by decide) (by decide)).2.1,
   (C8_flush_idempotent lgOn1 "t" "t2" none (some "down") rfl (by decide) (by decide)).2.2.1,
   (C8_flush_idempotent lgOn1 "t" "t2" none (some "down") rfl (by decide) (by decide)).2.2.2.1,
   (C8_flush_idempotent lgOn1 "t" "t2" none (some "down") rfl (by decide) (by decide)).2.2.2.2⟩

/-- Claim C2 is contradicted by the code (and `init_caching`'s own
docstring, which promises `self.cached_logs = []`): a successful
re-initialization performed while Enabled with an unflushed buffered entry
leaves that entry in the buffer — `init_caching` never touches
`cached_logs`.  The full reachable run: construct, initialize, emit one
cache-requested INFO line, re-initialize successfully; the buffer still
holds the entry. -/
theorem C2_reinit_preserves_buffer :
    mkLogger "prod" none none none (some "UTC") = Except.ok lgBase ∧
    init_caching envOkNb lgBase "main.logs.job_logs" = (lgOn, none) ∧
    info lgOn "2025-01-01 00:00:00" "step one" true =
      Except.ok ("[2025-01-01 00:00:00] : step one" ++ "\x1b[0m", lgOn1) ∧
    init_caching envOkNb lgOn1 "main.logs.job_logs" = (lgOn1, none) ∧
    lgOn1.cached_logs = [entry1] ∧
    (init_caching envOkNb lgOn1 "main.logs.job_logs").1.cached_logs ≠ [] := by
  decide

end Claims

end DatabricksLogger
